import Mathlib

/-!
Shallow embedding of the repository-construction core of `tuft`
(`src/tuft/RepoBuilder.py`): the file naming and discovery scheme
(`OurRoleLayout`), the role record life cycle (`OurRole`), the persister
(`RolePersister`), the reconciliation algorithm
(`RolesStrategy.loadOrCreateRoles`) and the publish cascade of
`RepoBuilder`.

Modelling choices: Python strings are Lean `String`s, byte strings are
`List Nat`, a repository directory is an association list from file name
to file content, machine integers are `Nat` (the repository only ever
stores non-negative versions and raises on any decrease), exceptions are
an explicit `Except` error type with one constructor per `raise` site, and
the external SHA-256 digest of `securesystemslib` is an arbitrary function
parameter.  The external `python-tuf` metadata constructors are embedded
by their documented defaults: a fresh `Snapshot` auto-populates one
metadata entry (`targets.json` at version 1) and a fresh `Timestamp`
references snapshot version 1 — the quirk the source works around when it
clears the metadata mapping of a snapshot it had to create fresh.
-/

namespace Tuft

/-- Numeric value of an ASCII digit character. -/
def digitVal (c : Char) : Nat := c.toNat - 48

/-- Decimal value of a big-endian digit string, the `int(...)` applied to the
digits captured by the discovery regular expression. -/
def digitsToNat (ds : List Char) : Nat := ds.foldl (fun a c => a * 10 + digitVal c) 0

/-- Decimal digit characters of a number, most significant first, with
explicit structural fuel; `natToCharsAux n n` is always enough fuel. -/
def natToCharsAux : Nat → Nat → List Char
  | 0, _ => []
  | _ + 1, 0 => []
  | fuel + 1, n + 1 =>
    natToCharsAux fuel ((n + 1) / 10) ++ [Char.ofNat (48 + (n + 1) % 10)]

/-- Decimal digit characters of a number (Python `str` of a non-negative
integer, `"0"` included). -/
def natToChars (n : Nat) : List Char := if n = 0 then ['0'] else natToCharsAux n n

/-- Python `str(version)` for a non-negative version number. -/
def natToString (n : Nat) : String := ⟨natToChars n⟩

/-- Maximal leading run of ASCII digits of a character list, together with
the remainder.  This is how the anchored pattern `(\d+)\. ...` splits a
candidate file name: the group is greedy, and because the character after
the group must be a literal dot, backtracking to a shorter digit run can
never make the rest match, so the greedy split decides the whole match. -/
def takeDigits : List Char → List Char × List Char
  | [] => ([], [])
  | c :: cs =>
    if c.isDigit then
      let r := takeDigits cs
      (c :: r.1, r.2)
    else ([], c :: cs)

/-- Boolean test that the second character list starts with the first; used
to embed the literal remainder of the discovery pattern (Python `re.match`
anchors only at the start of the candidate name). -/
def startsWithL : List Char → List Char → Bool
  | [], _ => true
  | _ :: _, [] => false
  | p :: ps, c :: cs => p == c && startsWithL ps cs

/-- Embedding of `.replace(".", "\\.")`, applied to the pattern text when
the discovery regular expression is built. -/
def escapeDots (s : String) : String :=
  ⟨s.data.foldr (fun c acc => if c = '.' then '\\' :: '.' :: acc else c :: acc) []⟩

/-- File extension declared by the `jsonFancySerializer` collaborator
(`serializer.py`). -/
def jsonExt : String := "json"

/-- Embeds `OurRoleLayout.getConsistentFileName`. -/
def getConsistentFileName (ext roleName version : String) : String :=
  version ++ "." ++ roleName ++ "." ++ ext

/-- Embeds `OurRoleLayout.getSimpleFileName`. -/
def getSimpleFileName (ext roleName : String) : String :=
  roleName ++ "." ++ ext

/-- Characters the discovery regular expression treats as literals once all
dots are escaped: letters, digits, dot, underscore and hyphen.  Every role
name and file extension the program constructs satisfies this predicate;
it scopes the two string parameters of the matcher below to the domain on
which the literal embedding coincides with Python `re` semantics. -/
def regexSafeChar (c : Char) : Bool := c.isAlphanum || c = '.' || c = '_' || c = '-'

/-- All characters of a string are regular-expression literals. -/
def regexSafeStr (s : String) : Bool := s.data.all regexSafeChar

/-- Matching one file name against the compiled discovery pattern
`(\d+)\.<roleName>\.<ext>` (every dot escaped): the maximal leading digit
run is captured and converted with `int`, and the remainder of the name
must then start with the literal `.<roleName>.<ext>` — `re.match` anchors
only at the start, so a trailing suffix is allowed. -/
def matchConsistent (ext roleName fn : String) : Option (Nat × String) :=
  let s := takeDigits fn.data
  if s.1 = [] then none
  else if startsWithL ('.' :: roleName.data ++ '.' :: ext.data) s.2 then
    some (digitsToNat s.1, fn)
  else none

/-- Stable insertion of a `(version, fileName)` pair behind all pairs whose
version is less than or equal to its own. -/
def insertByVer (x : Nat × String) : List (Nat × String) → List (Nat × String)
  | [] => [x]
  | y :: ys => if y.1 ≤ x.1 then y :: insertByVer x ys else x :: y :: ys

/-- Stable sort by version, Python `sorted(versions, key=lambda x: x[0])`. -/
def sortByVer (xs : List (Nat × String)) : List (Nat × String) :=
  xs.foldl (fun acc x => insertByVer x acc) []

/-- Errors of the loading, reconciliation and persistence paths, one
constructor per Python `raise` site (exception class and arguments are
noted on each constructor). -/
inductive RepoError
  /-- Python FileNotFoundError; raised by `read_bytes` on a missing file and
  by `discoverConsistentVersionsFromFileNames` (carrying the pattern text)
  when no candidate matches. -/
  | fileNotFound (what : String)
  /-- Python RuntimeError "Version within file doesn't match the expected
  version" with role name, expected and found version, raised in
  `RolePersister.loadFromData`. -/
  | versionMismatchFile (roleName : String) (expected got : Nat)
  /-- Python ValueError "Expected version from file name doesn't math the
  one from metadata" with file name, the version from the name and the one
  from the snapshot metadata, raised in `RolesStrategy.loadOrCreateRoles`. -/
  | versionFromNameMismatch (fileName : String) (fromName fromMeta : Nat)
  /-- Python RuntimeError "Not unique metadata file for a role". -/
  | notUniqueMetadata (roleName : String)
  /-- Python RuntimeError "Not all roles have been loaded from the required
  ones". -/
  | notAllRolesLoaded (remaining : List String)
  /-- Python RuntimeError "The data for the role is unsigned!", raised in
  `RolePersister.save`. -/
  | unsignedSave (roleName : String)
  /-- Python ValueError "Version decrease" with the old and the new value,
  raised by the `OurRole.version` setter. -/
  | versionDecrease (old new : Nat)
  /-- Python ValueError "Incorrect data" in `RolePersister.deserializeData`:
  the file content does not decode to a mapping. -/
  | incorrectData (fileName : String)
  /-- Python KeyError on a mapping access. -/
  | keyError (key : String)
  /-- Python TypeError: a path operation on a repository root that is None. -/
  | noRepoRoot
  deriving DecidableEq

/-- Embeds `OurRoleLayout.discoverConsistentVersionsFromFileNames`: collect
every `(version, fileName)` match and sort by version; an empty result
raises FileNotFoundError carrying the pattern text. -/
def discoverConsistentVersionsFromFileNames (ext roleName : String)
    (fileNames : List String) : Except RepoError (List (Nat × String)) :=
  let versions := sortByVer (fileNames.filterMap (matchConsistent ext roleName))
  if versions = [] then
    .error (.fileNotFound (escapeDots (getConsistentFileName ext roleName "(\\d+)")))
  else .ok versions

/-- Embeds `OurRoleLayout.discoverSipleVersionsFromFileNames` (the name
keeps the source's spelling): a single `(None, simpleFileName)` candidate
when the simple file name occurs among the given names, else no candidate
— and no exception. -/
def discoverSipleVersionsFromFileNames (ext roleName : String)
    (fileNames : List String) : List (Option Nat × String) :=
  if fileNames.contains (getSimpleFileName ext roleName) then
    [(none, getSimpleFileName ext roleName)]
  else []

/-- Kind tag of a signed payload: Root, Targets, Snapshot or Timestamp. -/
inductive RoleKind
  | root
  | targets
  | snapshot
  | timestamp
  deriving DecidableEq

/-- Embeds `RoleFactory`: role name, payload constructor (as a kind tag)
and whether versioned file names apply.  The default expiration duration
and the dependency tuple take no part in the verified operations and are
omitted. -/
structure RoleFactory where
  name : String
  ctorKind : RoleKind
  hasVersion : Bool
  deriving DecidableEq

/-- Embeds the external `TargetFile`: recorded byte length and SHA-256
digest (the digest is whatever the external hash function produced). -/
structure TargetFileRec where
  length : Nat
  sha256 : String
  deriving DecidableEq

/-- Signed payload as a tagged record: `version` is common to all kinds;
`targets` maps a target path to its `TargetFile` record (Targets kind),
`meta` maps a metadata file name to its recorded version, i.e. the
`MetaFile` mapping (Snapshot kind), `snapshotMetaVersion` is the snapshot
version a Timestamp references, and `consistentSnapshot` is the flag a
Root carries.  Fields of a foreign kind stay at their creation value. -/
structure Payload where
  kind : RoleKind
  version : Nat
  targets : List (String × TargetFileRec)
  meta : List (String × Nat)
  snapshotMetaVersion : Nat
  consistentSnapshot : Bool
  deriving DecidableEq

/-- Embeds `OurRole`: a role record — factory, signed payload, the
"needs signing" (dirty) flag and the "needs saving" flag. -/
structure OurRole where
  fac : RoleFactory
  payload : Payload
  needsSigning : Bool
  needsSaving : Bool
  deriving DecidableEq

/-- Current version: the `OurRole.version` getter reads
`role.signed.version`. -/
def roleVersion (r : OurRole) : Nat := r.payload.version

/-- Setter of the `needsSigning` property: any transition of the dirty flag
also sets `needsSaving`; writing the current value changes nothing. -/
def setNeedsSigning (r : OurRole) (v : Bool) : OurRole :=
  if r.needsSigning ≠ v then { r with needsSaving := true, needsSigning := v } else r

/-- Setter of the private `_version` property: store the version into the
signed payload, then mark the record dirty through the `needsSigning`
setter. -/
def setVersionRaw (r : OurRole) (v : Nat) : OurRole :=
  setNeedsSigning { r with payload := { r.payload with version := v } } true

/-- Public `version` setter: a strictly smaller value raises ValueError
"Version decrease" (old value first); an equal value is a no-op; a strictly
larger value is stored through the private setter, marking the record
dirty. -/
def setVersionChecked (r : OurRole) (v : Nat) : Except RepoError OurRole :=
  if v < roleVersion r then .error (.versionDecrease (roleVersion r) v)
  else if v ≠ roleVersion r then .ok (setVersionRaw r v)
  else .ok r

/-- Embeds `OurRole.bumpVersion`. -/
def bumpVersion (r : OurRole) : OurRole := setVersionRaw r (roleVersion r + 1)

/-- Embeds `OurRole.sign`: when dirty, bump the version, recompute the
signature (external `SSlibSigner`, not part of the record state), clear the
dirty flag, set the saving flag and report true; otherwise report false and
change nothing.  `KeyManager.sign` looks the key up by role name and
delegates here. -/
def signRole (r : OurRole) : OurRole × Bool :=
  if r.needsSigning then
    let r1 := bumpVersion r
    let r2 := setNeedsSigning r1 false
    ({ r2 with needsSaving := true }, true)
  else (r, false)

/-- Fresh payload produced by the external `python-tuf` constructors called
from `RoleFactory.createEmpty`: `Signed` defaults the version to 1, a fresh
Snapshot auto-populates its metadata mapping with `targets.json` at version
1, a fresh Timestamp references snapshot version 1, and Root stores the
requested consistent-snapshot flag. -/
def initialPayload : RoleKind → Bool → Payload
  | .root, cs => ⟨.root, 1, [], [], 0, cs⟩
  | .targets, _ => ⟨.targets, 1, [], [], 0, false⟩
  | .snapshot, _ => ⟨.snapshot, 1, [], [("targets.json", 1)], 0, false⟩
  | .timestamp, _ => ⟨.timestamp, 1, [], [], 1, false⟩

/-- Embeds `RoleFactory.createEmpty`: build the fresh payload (flags start
clear in the `OurRole` constructor), then assign the illegal sentinel
version 0 through the private `_version` setter — which marks the record
dirty and, through the dirty transition, needing saving. -/
def createEmpty (fac : RoleFactory) (cs : Bool) : OurRole :=
  setVersionRaw ⟨fac, initialPayload fac.ctorKind cs, false, false⟩ 0

/-- Embeds `RoleFactory.fromDict` as used by the load path: a record
wrapped around a parsed payload starts with both flags clear. -/
def loadedRole (fac : RoleFactory) (p : Payload) : OurRole := ⟨fac, p, false, false⟩

/-- Embeds `rootRoleFac`: never a versioned file name. -/
def rootRoleFac : RoleFactory := ⟨"root", .root, false⟩

/-- Embeds `targetsRoleFac`. -/
def targetsRoleFac : RoleFactory := ⟨"targets", .targets, true⟩

/-- Embeds `snapshotRoleFac`. -/
def snapshotRoleFac : RoleFactory := ⟨"snapshot", .snapshot, true⟩

/-- Embeds `timestampRoleFac`: never a versioned file name. -/
def timestampRoleFac : RoleFactory := ⟨"timestamp", .timestamp, false⟩

/-- Embeds `ROLES_MODEL` — the non-root roles, order matters. -/
def rolesModel : List RoleFactory := [targetsRoleFac, snapshotRoleFac, timestampRoleFac]

/-- Content of one file of the repository directory: a serialized metadata
payload (the text serializer collaborator is lossless, so the payload value
itself stands for the file text) or raw published user bytes. -/
inductive FileContent
  | meta (p : Payload)
  | user (data : List Nat)
  deriving DecidableEq

/-- Repository directory: file name to file content, in creation order;
every entry is a regular file. -/
def Dir : Type := List (String × FileContent)

/-- Lookup in an association list, Python `d[k]` with a `none` for the
KeyError case. -/
def listLookup {α : Type} : List (String × α) → String → Option α
  | [], _ => none
  | (k, v) :: t, key => if k = key then some v else listLookup t key

/-- Update-or-append in an association list, Python `d[k] = v` — an
existing key keeps its position, a new key is appended. -/
def listSet {α : Type} : List (String × α) → String → α → List (String × α)
  | [], k, v => [(k, v)]
  | (k', v') :: t, k, v => if k' = k then (k, v) :: t else (k', v') :: listSet t k v

/-- Embeds `OurRoleLayout.getFileName` (the version number is stringified
only in consistent mode). -/
def getFileName (ext : String) (fac : RoleFactory) (v : Nat) (isConsistent : Bool) : String :=
  if isConsistent then getConsistentFileName ext fac.name (natToString v)
  else getSimpleFileName ext fac.name

/-- Embeds `RolesStrategy.isRoleConsistent`: consistent naming applies only
when the repository is consistent and the role carries a version in its
file name. -/
def isRoleConsistent (fac : RoleFactory) (isConsistent : Bool) : Bool :=
  isConsistent && fac.hasVersion

/-- Embeds `RolesStrategy.fileNameForRole`. -/
def fileNameForRole (fac : RoleFactory) (v : Nat) (isConsistent : Bool) : String :=
  getFileName jsonExt fac v (isRoleConsistent fac isConsistent)

/-- Embeds `RolePersister.save`: a record that needs saving but is still
dirty raises RuntimeError before anything is written; otherwise the record
is serialized under its file name and its saving flag is cleared.  A
record that does not need saving is left untouched and nothing is written. -/
def persisterSave (dir : Dir) (isConsistent : Bool) (r : OurRole) :
    Except RepoError (Dir × OurRole) :=
  if r.needsSaving then
    if r.needsSigning then .error (.unsignedSave r.fac.name)
    else
      .ok (listSet dir (getFileName jsonExt r.fac (roleVersion r) isConsistent) (.meta r.payload),
        { r with needsSaving := false })
  else .ok (dir, r)

/-- Embeds `read_bytes` + `RolePersister.loadFromData`: look the file up
(a missing file raises FileNotFoundError), deserialize it (user bytes do
not decode to a mapping and raise ValueError), and reject a payload whose
version differs from the expected one with RuntimeError. -/
def loadFromEntry (fac : RoleFactory) (fileName : String) (entry : Option FileContent)
    (expectedVersion : Option Nat) : Except RepoError OurRole :=
  match entry with
  | none => .error (.fileNotFound fileName)
  | some (.user _) => .error (.incorrectData fileName)
  | some (.meta p) =>
    match expectedVersion with
    | some ev =>
      if p.version ≠ ev then .error (.versionMismatchFile fac.name ev p.version)
      else .ok (loadedRole fac p)
    | none => .ok (loadedRole fac p)

/-- Embeds `RolePersister.loadFromRepo`: with an explicit version the file
name is derived from it and that version is checked against the payload;
blind discovery in consistent mode scans the directory, selects the
highest-version candidate and checks the version its name encodes; blind
simple discovery checks no version at all. -/
def loadFromRepo (fac : RoleFactory) (dir : Dir) (isConsistent : Bool)
    (versionToLoad : Option Nat) : Except RepoError OurRole :=
  match versionToLoad with
  | some v =>
    loadFromEntry fac (getFileName jsonExt fac v isConsistent)
      (listLookup dir (getFileName jsonExt fac v isConsistent)) (some v)
  | none =>
    if isConsistent then
      match discoverConsistentVersionsFromFileNames jsonExt fac.name (dir.map Prod.fst) with
      | .error e => .error e
      | .ok versions =>
        match versions.getLast? with
        | some vf => loadFromEntry fac vf.2 (listLookup dir vf.2) (some vf.1)
        | none => .error (.fileNotFound fac.name)
    else
      loadFromEntry fac (getSimpleFileName jsonExt fac.name)
        (listLookup dir (getSimpleFileName jsonExt fac.name)) none

/-- Embeds `RolePersister.loadOrCreate`: with no repository root, or when
loading raises FileNotFoundError, a fresh empty role is created and the
flag reports that nothing was loaded; every other error propagates. -/
def loadOrCreate (fac : RoleFactory) (repoRoot : Option Dir) (isConsistent : Bool)
    (versionToLoad : Option Nat) : Except RepoError (OurRole × Bool) :=
  match repoRoot with
  | none => .ok (createEmpty fac false, false)
  | some dir =>
    match loadFromRepo fac dir isConsistent versionToLoad with
    | .ok r => .ok (r, true)
    | .error (.fileNotFound _) => .ok (createEmpty fac false, false)
    | .error e => .error e

/-- Embeds the dispatcher `discoverVersionsFromFileNames`, unifying both
modes into `(Option version, fileName)` candidates; only the consistent
branch can raise. -/
def discoverVersionsFromFileNames (ext : String) (fac : RoleFactory)
    (fileNames : List String) (isConsistent : Bool) :
    Except RepoError (List (Option Nat × String)) :=
  if isConsistent then
    (discoverConsistentVersionsFromFileNames ext fac.name fileNames).map
      (List.map fun p => (some p.1, p.2))
  else .ok (discoverSipleVersionsFromFileNames ext fac.name fileNames)

/-- Embeds `snapshot.role.signed.meta.clear()`, the clearing applied to a
snapshot that was created rather than loaded; the flags are untouched
(direct payload mutation does not mark the record dirty). -/
def clearMeta (r : OurRole) : OurRole := { r with payload := { r.payload with meta := [] } }

/-- Embeds the body of the per-role loop of
`RolesStrategy.loadOrCreateRoles` for one remaining role: discover
candidates among the file names recorded in the snapshot payload's
metadata mapping; more than one candidate is a fatal ambiguity; for a
single candidate, cross-check the version its file name encodes (if any)
against the version the snapshot records for that file name, then load the
file from the directory checking the recorded version against the payload;
an empty candidate list creates the role fresh instead. -/
def loadRemainingRole (repoRoot : Option Dir) (snapMeta : List (String × Nat))
    (fac : RoleFactory) (isConsistent : Bool) : Except RepoError OurRole :=
  match discoverVersionsFromFileNames jsonExt fac (snapMeta.map Prod.fst)
      (isRoleConsistent fac isConsistent) with
  | .error e => .error e
  | .ok [] => .ok (createEmpty fac false)
  | .ok [(expVN, fileName)] =>
    (match listLookup snapMeta fileName with
     | none => .error (.keyError fileName)
     | some expectedVersion =>
       match expVN with
       | some vn =>
         if expectedVersion ≠ vn then
           .error (.versionFromNameMismatch fileName vn expectedVersion)
         else
           match repoRoot with
           | none => .error .noRepoRoot
           | some dir =>
             loadFromEntry fac fileName (listLookup dir fileName) (some expectedVersion)
       | none =>
         match repoRoot with
         | none => .error .noRepoRoot
         | some dir =>
           loadFromEntry fac fileName (listLookup dir fileName) (some expectedVersion))
  | .ok _ => .error (.notUniqueMetadata fac.name)

/-- Lexicographic (code-point) comparison of character lists, the order
Python uses on strings. -/
def charListLe : List Char → List Char → Bool
  | [], _ => true
  | _ :: _, [] => false
  | a :: as, b :: bs =>
    if a.toNat < b.toNat then true
    else if a.toNat = b.toNat then charListLe as bs
    else false

/-- Stable insertion of a string behind all less-or-equal strings. -/
def insertStr (s : String) : List String → List String
  | [] => [s]
  | t :: ts => if charListLe t.data s.data then t :: insertStr s ts else s :: t :: ts

/-- Python `sorted` over a collection of strings. -/
def sortStrings (xs : List String) : List String :=
  xs.foldl (fun acc x => insertStr x acc) []

/-- Loop of `loadOrCreateRoles` over the sorted remaining role names:
resolve each name to its factory in the model (a missing name would be a
KeyError), load or create the role, record it in the dictionary and remove
the name from the remaining set. -/
def loadRolesLoop (repoRoot : Option Dir) (snapMeta : List (String × Nat))
    (isConsistent : Bool) :
    List String → List (String × OurRole) → List String →
    Except RepoError (List (String × OurRole) × List String)
  | [], rolesDict, rolesToLoad => .ok (rolesDict, rolesToLoad)
  | rn :: rest, rolesDict, rolesToLoad =>
    match rolesModel.find? (fun f => f.name == rn) with
    | none => .error (.keyError rn)
    | some fac =>
      match loadRemainingRole repoRoot snapMeta fac isConsistent with
      | .error e => .error e
      | .ok r =>
        loadRolesLoop repoRoot snapMeta isConsistent rest
          (listSet rolesDict fac.name r) (rolesToLoad.filter (fun n => n ≠ fac.name))

/-- Embeds `RolesStrategy.loadOrCreateRoles`, the reconciliation: load or
create Timestamp blindly in simple mode; load or create Snapshot — in
simple mode — pinned to the version the timestamp references, clearing its
metadata mapping when it was created rather than loaded; then resolve every
remaining role of the model against the file names recorded in the
snapshot payload (sorted by role name), and fail if any declared role was
left unresolved. -/
def loadOrCreateRoles (repoRoot : Option Dir) (isConsistent : Bool) :
    Except RepoError (List (String × OurRole)) :=
  match loadOrCreate timestampRoleFac repoRoot false none with
  | .error e => .error e
  | .ok (ts, _) =>
    match loadOrCreate snapshotRoleFac repoRoot false (some ts.payload.snapshotMetaVersion) with
    | .error e => .error e
    | .ok (ss0, isSnapshotLoaded) =>
      let ss := if isSnapshotLoaded then ss0 else clearMeta ss0
      let rolesDict := [("timestamp", ts), ("snapshot", ss)]
      let rolesToLoad := (rolesModel.map RoleFactory.name).filter
        (fun n => (listLookup rolesDict n).isNone)
      match loadRolesLoop repoRoot ss.payload.meta isConsistent
          (sortStrings rolesToLoad) rolesDict rolesToLoad with
      | .error e => .error e
      | .ok (rolesDict2, remaining) =>
        if remaining ≠ [] then .error (.notAllRolesLoaded remaining) else .ok rolesDict2

/-- Embeds the `RepoBuilder` state: the seed root's consistent-snapshot
flag, the roles dictionary filled by reconciliation and the user files to
publish. -/
structure Builder where
  consistent : Bool
  ourRoles : List (String × OurRole)
  userFiles : List (String × List Nat)
  deriving DecidableEq

/-- Placeholder role record standing for the KeyError a missing dictionary
key would raise; reconciliation always populates all three roles, so the
verified paths never reach it. -/
def dummyRole : OurRole := createEmpty targetsRoleFac false

/-- Python `self.ourRoles[name]`. -/
def getRole (b : Builder) (n : String) : OurRole := (listLookup b.ourRoles n).getD dummyRole

/-- Replacement of one role in the builder's dictionary. -/
def setRole (b : Builder) (n : String) (r : OurRole) : Builder :=
  { b with ourRoles := listSet b.ourRoles n r }

/-- Embeds `RepoBuilder.__init__` followed by `load`: reconcile the role
set from the (optional) repository root under the seed's consistency flag. -/
def mkRepoBuilder (consistent : Bool) (repoRoot : Option Dir)
    (userFiles : List (String × List Nat)) : Except RepoError Builder :=
  match loadOrCreateRoles repoRoot consistent with
  | .error e => .error e
  | .ok roles => .ok ⟨consistent, roles, userFiles⟩

/-- Embeds the external `TargetFile.from_data`: record the byte length and
the SHA-256 digest produced by the external hash function. -/
def targetFileFromData (hash : List Nat → String) (data : List Nat) : TargetFileRec :=
  ⟨data.length, hash data⟩

/-- Embeds `RepoBuilder.bindContent`: record every user file into the
Targets payload, mark Targets dirty and sign it. -/
def bindContent (hash : List Nat → String) (b : Builder) : Builder :=
  let t0 := getRole b "targets"
  let newTargets := b.userFiles.foldl
    (fun ts pd => listSet ts pd.1 (targetFileFromData hash pd.2)) t0.payload.targets
  let t1 := { t0 with payload := { t0.payload with targets := newTargets } }
  setRole b "targets" (signRole (setNeedsSigning t1 true)).1

/-- Embeds `RepoBuilder.bindMetadata`: every role whose payload is not a
Snapshot or Timestamp records its current file name (under the current
consistency mode) and version into the snapshot payload's metadata
mapping; the snapshot is then marked dirty and signed. -/
def bindMetadata (b : Builder) : Builder :=
  let s0 := getRole b "snapshot"
  let newMeta := b.ourRoles.foldl
    (fun m nr =>
      if nr.2.payload.kind = RoleKind.snapshot ∨ nr.2.payload.kind = RoleKind.timestamp then m
      else listSet m (fileNameForRole nr.2.fac (roleVersion nr.2) b.consistent) (roleVersion nr.2))
    s0.payload.meta
  let s1 := { s0 with payload := { s0.payload with meta := newMeta } }
  setRole b "snapshot" (signRole (setNeedsSigning s1 true)).1

/-- Embeds `RepoBuilder.stamp`: point the timestamp at the now-current
snapshot version, mark it dirty and sign it. -/
def stamp (b : Builder) : Builder :=
  let t0 := getRole b "timestamp"
  let t1 := { t0 with payload :=
    { t0.payload with snapshotMetaVersion := roleVersion (getRole b "snapshot") } }
  setRole b "timestamp" (signRole (setNeedsSigning t1 true)).1

/-- Embeds `RepoBuilder.makeSnapshot`, the publish cascade. -/
def makeSnapshot (hash : List Nat → String) (b : Builder) : Builder :=
  stamp (bindMetadata (bindContent hash b))

/-- Embeds `RolesStrategy.save`. -/
def strategySave (dir : Dir) (isConsistent : Bool) (r : OurRole) :
    Except RepoError (Dir × OurRole) :=
  persisterSave dir (isRoleConsistent r.fac isConsistent) r

/-- Loop of `RepoBuilder.saveMeta` over the roles dictionary in order. -/
def saveMetaLoop (isConsistent : Bool) :
    List (String × OurRole) → Dir → Except RepoError (Dir × List (String × OurRole))
  | [], dir => .ok (dir, [])
  | (n, r) :: rest, dir =>
    match strategySave dir isConsistent r with
    | .error e => .error e
    | .ok (dir1, r1) =>
      match saveMetaLoop isConsistent rest dir1 with
      | .error e => .error e
      | .ok (dir2, rs) => .ok (dir2, (n, r1) :: rs)

/-- Embeds `RepoBuilder.saveMeta`: save every role record; the flag changes
the persister makes are reflected back into the dictionary. -/
def saveMeta (b : Builder) (dir : Dir) : Except RepoError (Dir × Builder) :=
  match saveMetaLoop b.consistent b.ourRoles dir with
  | .error e => .error e
  | .ok (dir1, roles1) => .ok (dir1, { b with ourRoles := roles1 })

/-- Embeds `RepoBuilder.getPrefixForUserFile`: under a consistent-snapshot
root the published name is prefixed with the recorded SHA-256 digest and a
dot (a missing Targets entry would be a KeyError); otherwise there is no
added text. -/
def getPrefixForUserFile (b : Builder) (fn : String) : Except RepoError String :=
  if b.consistent then
    match listLookup (getRole b "targets").payload.targets fn with
    | some tf => .ok (tf.sha256 ++ ".")
    | none => .error (.keyError fn)
  else .ok ""

/-- Embeds `RepoBuilder.saveFiles`: write every user file's bytes under its
(possibly digest-prefixed) name. -/
def saveFiles (b : Builder) : List (String × List Nat) → Dir → Except RepoError Dir
  | [], dir => .ok dir
  | (fn, data) :: rest, dir =>
    match getPrefixForUserFile b fn with
    | .error e => .error e
    | .ok pre => saveFiles b rest (listSet dir (pre ++ fn) (.user data))

/-- Embeds `RepoBuilder.save`: metadata first, then the user files. -/
def saveBuilder (b : Builder) (dir : Dir) : Except RepoError (Dir × Builder) :=
  match saveMeta b dir with
  | .error e => .error e
  | .ok (dir1, b1) =>
    match saveFiles b1 b1.userFiles dir1 with
    | .error e => .error e
    | .ok dir2 => .ok (dir2, b1)

/-- Operations of the role-record life cycle that follow creation or
loading. -/
inductive RoleOp
  | setVer (v : Nat)
  | bump
  | signOp
  | saveOp (isConsistent : Bool)
  deriving DecidableEq

/-- One life-cycle operation on a record and the directory; a raised error
leaves both as they were, because every raise site fires before any
mutation. -/
def applyOp (dir : Dir) (r : OurRole) : RoleOp → Dir × OurRole
  | .setVer v =>
    match setVersionChecked r v with
    | .ok r1 => (dir, r1)
    | .error _ => (dir, r)
  | .bump => (dir, bumpVersion r)
  | .signOp => (dir, (signRole r).1)
  | .saveOp c =>
    match persisterSave dir c r with
    | .ok dr => dr
    | .error _ => (dir, r)

/-- Run of a sequence of life-cycle operations. -/
def runOps (dir : Dir) (r : OurRole) (ops : List RoleOp) : Dir × OurRole :=
  ops.foldl (fun s op => applyOp s.1 s.2 op) (dir, r)

/-- Boolean invariant of a role record: a dirty record needs saving. -/
def dirtyImpliesSavingB (r : OurRole) : Bool := !r.needsSigning || r.needsSaving

/-- Byte string of Python `b"hello"`. -/
def helloBytes : List Nat := [104, 101, 108, 108, 111]

/-- Round trip of the spec's testable property: build a repository from
scratch (simple mode, the default of `RepoSeed.make`) holding one user
file, run the publish cascade, save into an empty directory, then
reconcile a fresh role set from the saved directory.  The result pairs the
builder as it stood at save time with a builder around the reconciled
roles. -/
def roundTripC3 (hash : List Nat → String) : Except RepoError (Builder × Builder) :=
  match mkRepoBuilder false none [("a.txt", helloBytes)] with
  | .error e => .error e
  | .ok b0 =>
    match saveBuilder (makeSnapshot hash b0) [] with
    | .error e => .error e
    | .ok (dir, bSaved) =>
      match loadOrCreateRoles (some dir) false with
      | .error e => .error e
      | .ok roles2 => .ok (bSaved, ⟨false, roles2, []⟩)

/-- Snapshot metadata mapping with a candidate file name for the targets
role recorded at version 4, while the file name itself encodes version 3. -/
def c1SnapMeta : List (String × Nat) := [("3.targets.json", 4)]

/-- Directory holding that candidate file with in-payload version 5. -/
def c1Dir : Dir := [("3.targets.json", FileContent.meta ⟨.targets, 5, [], [], 0, false⟩)]

/-- Builder state of a consistent-mode update cycle: a snapshot loaded with
a stale metadata entry for the previous targets file name, and a targets
record already at the next version. -/
def bStale : Builder :=
  ⟨true,
   [("timestamp", createEmpty timestampRoleFac false),
    ("snapshot", loadedRole snapshotRoleFac ⟨.snapshot, 1, [], [("1.targets.json", 1)], 0, false⟩),
    ("targets", loadedRole targetsRoleFac ⟨.targets, 2, [], [], 0, false⟩)],
   []⟩

/-- Fresh timestamp record used as a concrete builder input. -/
def c9Ts : OurRole := createEmpty timestampRoleFac false

/-- Fresh snapshot record used as a concrete builder input. -/
def c9Ss : OurRole := createEmpty snapshotRoleFac false

/-- Fresh targets record used as a concrete builder input. -/
def c9Tg : OurRole := createEmpty targetsRoleFac false

/-- Targets payload at version 2 used in concrete witnesses. -/
def tgPayload2 : Payload := ⟨.targets, 2, [], [], 0, false⟩

/-- Loaded targets record at version 2 with the saving flag set, as the
persister leaves a freshly signed record. -/
def savedTargets2 : OurRole := { loadedRole targetsRoleFac tgPayload2 with needsSaving := true }

theorem listLookup_set_self {α : Type} (m : List (String × α)) (k : String) (v : α) :
    listLookup (listSet m k v) k = some v := by
  induction m with
  | nil => simp [listSet, listLookup]
  | cons h t ih =>
    obtain ⟨k', v'⟩ := h
    by_cases hk : k' = k
    · subst hk
      simp [listSet, listLookup]
    · simp [listSet, hk, listLookup, ih]

theorem listLookup_set_ne {α : Type} (m : List (String × α)) (k k' : String) (v : α)
    (h : k' ≠ k) : listLookup (listSet m k v) k' = listLookup m k' := by
  induction m with
  | nil => simp [listSet, listLookup, Ne.symm h]
  | cons hd t ih =>
    obtain ⟨k'', v''⟩ := hd
    by_cases hk : k'' = k
    · subst hk
      simp [listSet, listLookup, Ne.symm h]
    · simp [listSet, hk, listLookup, ih]

theorem payload_setNeedsSigning (r : OurRole) (b : Bool) :
    (setNeedsSigning r b).payload = r.payload := by
  unfold setNeedsSigning
  split <;> rfl

theorem meta_signRole (r : OurRole) :
    ((signRole r).1).payload.meta = r.payload.meta := by
  unfold signRole
  split
  · show ((setNeedsSigning (bumpVersion r) false).payload).meta = _
    rw [payload_setNeedsSigning]
    show ((setNeedsSigning _ true).payload).meta = _
    rw [payload_setNeedsSigning]
  · rfl

theorem inv_setNeedsSigning (r : OurRole) (b : Bool)
    (h : dirtyImpliesSavingB r = true) :
    dirtyImpliesSavingB (setNeedsSigning r b) = true := by
  cases hs : r.needsSigning <;> cases b <;>
    simp_all [setNeedsSigning, dirtyImpliesSavingB]

theorem inv_setVersionRaw (r : OurRole) (v : Nat)
    (h : dirtyImpliesSavingB r = true) :
    dirtyImpliesSavingB (setVersionRaw r v) = true :=
  inv_setNeedsSigning { r with payload := { r.payload with version := v } } true h

theorem inv_signRole (r : OurRole) (h : dirtyImpliesSavingB r = true) :
    dirtyImpliesSavingB (signRole r).1 = true := by
  by_cases hs : r.needsSigning
  · simp [signRole, hs, dirtyImpliesSavingB]
  · simpa [signRole, hs] using h

theorem inv_applyOp (dir : Dir) (r : OurRole) (op : RoleOp)
    (h : dirtyImpliesSavingB r = true) :
    dirtyImpliesSavingB (applyOp dir r op).2 = true := by
  cases op with
  | setVer v =>
    by_cases h1 : v < roleVersion r
    · simpa [applyOp, setVersionChecked, h1] using h
    · by_cases h2 : v ≠ roleVersion r
      · simpa [applyOp, setVersionChecked, h1, h2] using inv_setVersionRaw r v h
      · simpa [applyOp, setVersionChecked, h1, h2] using h
  | bump => simpa [applyOp, bumpVersion] using inv_setVersionRaw r (roleVersion r + 1) h
  | signOp => simpa [applyOp] using inv_signRole r h
  | saveOp c =>
    by_cases h1 : r.needsSaving
    · by_cases h2 : r.needsSigning
      · simpa [applyOp, persisterSave, h1, h2] using h
      · simp [applyOp, persisterSave, h1, h2, dirtyImpliesSavingB]
    · simpa [applyOp, persisterSave, h1] using h

theorem inv_runOps (dir : Dir) (r : OurRole) (ops : List RoleOp)
    (h : dirtyImpliesSavingB r = true) :
    dirtyImpliesSavingB (runOps dir r ops).2 = true := by
  induction ops generalizing dir r with
  | nil => simpa [runOps] using h
  | cons op rest ih =>
    simpa [runOps, List.foldl_cons] using
      ih (applyOp dir r op).1 (applyOp dir r op).2 (inv_applyOp dir r op h)

/-- Claim C2: signing a dirty role record bumps its version by exactly one
(through the automatic `bumpVersion`) and reports true; signing a non-dirty
record is a no-op reporting false. -/
theorem C2_sign_bumps_once (r : OurRole) :
    (r.needsSigning = true →
      (signRole r).2 = true ∧ roleVersion (signRole r).1 = roleVersion r + 1) ∧
    (r.needsSigning = false → signRole r = (r, false)) := by
  constructor
  · intro h
    refine ⟨by simp [signRole, h], ?_⟩
    simp [signRole, h, bumpVersion, setVersionRaw, setNeedsSigning, roleVersion]
  · intro h
    simp [signRole, h]

/-- Concrete run of the signing theorem: a fresh (dirty) record moves from
the sentinel version 0 to 1 and reports true; a loaded (clean) record is
untouched and reports false. -/
theorem C2_sign_bumps_once_witness :
    ((signRole (createEmpty targetsRoleFac false)).2 = true ∧
      roleVersion (signRole (createEmpty targetsRoleFac false)).1 =
        roleVersion (createEmpty targetsRoleFac false) + 1) ∧
    signRole (loadedRole targetsRoleFac tgPayload2) =
      (loadedRole targetsRoleFac tgPayload2, false) :=
  ⟨(C2_sign_bumps_once (createEmpty targetsRoleFac false)).1 rfl,
   (C2_sign_bumps_once (loadedRole targetsRoleFac tgPayload2)).2 rfl⟩

/-- Claim C7: setting a role's version to a strictly smaller value raises
the version-decrease error (and, the exception firing before any mutation,
leaves the record unchanged); setting it to a strictly larger value stores
the value and marks the record dirty. -/
theorem C7_version_setter (r : OurRole) (v : Nat) :
    (v < roleVersion r →
      setVersionChecked r v = .error (.versionDecrease (roleVersion r) v)) ∧
    (roleVersion r < v →
      setVersionChecked r v = .ok (setVersionRaw r v) ∧
      roleVersion (setVersionRaw r v) = v ∧
      (setVersionRaw r v).needsSigning = true) := by
  constructor
  · intro h
    simp [setVersionChecked, h]
  · intro h
    have h1 : ¬ v < roleVersion r := by omega
    have h2 : v ≠ roleVersion r := by omega
    refine ⟨by simp [setVersionChecked, h1, h2], ?_, ?_⟩ <;>
      cases hns : r.needsSigning <;>
        simp [setVersionRaw, setNeedsSigning, roleVersion, hns]

/-- Concrete run of the version-setter theorem on a record at version 2:
setting 1 raises the version-decrease error, setting 5 stores 5 and marks
the record dirty. -/
theorem C7_version_setter_witness :
    setVersionChecked (loadedRole targetsRoleFac tgPayload2) 1 =
      .error (.versionDecrease 2 1) ∧
    setVersionChecked (loadedRole targetsRoleFac tgPayload2) 5 =
      .ok (setVersionRaw (loadedRole targetsRoleFac tgPayload2) 5) ∧
    roleVersion (setVersionRaw (loadedRole targetsRoleFac tgPayload2) 5) = 5 ∧
    (setVersionRaw (loadedRole targetsRoleFac tgPayload2) 5).needsSigning = true :=
  ⟨(C7_version_setter (loadedRole targetsRoleFac tgPayload2) 1).1 (by decide),
   (C7_version_setter (loadedRole targetsRoleFac tgPayload2) 5).2 (by decide)⟩

/-- Claim C6: saving a record that needs saving while it is still dirty
raises the unsigned-save error — the exception fires before the write, so
nothing is written; a successful save writes the serialized record under
its file name and clears the needs-saving flag. -/
theorem C6_save_dirty_fatal (dir : Dir) (isConsistent : Bool) (r : OurRole) :
    (r.needsSaving = true → r.needsSigning = true →
      persisterSave dir isConsistent r = .error (.unsignedSave r.fac.name)) ∧
    (r.needsSaving = true → r.needsSigning = false →
      persisterSave dir isConsistent r =
        .ok (listSet dir (getFileName jsonExt r.fac (roleVersion r) isConsistent)
              (.meta r.payload),
            { r with needsSaving := false }) ∧
      ({ r with needsSaving := false } : OurRole).needsSaving = false ∧
      listLookup
          (listSet dir (getFileName jsonExt r.fac (roleVersion r) isConsistent)
            (.meta r.payload))
          (getFileName jsonExt r.fac (roleVersion r) isConsistent) =
        some (.meta r.payload)) := by
  constructor
  · intro h1 h2
    simp [persisterSave, h1, h2]
  · intro h1 h2
    exact ⟨by simp [persisterSave, h1, h2], rfl, listLookup_set_self _ _ _⟩

/-- Concrete run of the save theorem: a fresh (dirty) record fails to save
with the unsigned-save error; a signed record at version 2 is written under
`targets.json` and its saving flag is cleared. -/
theorem C6_save_dirty_fatal_witness :
    persisterSave [] false (createEmpty targetsRoleFac false) =
      .error (.unsignedSave "targets") ∧
    persisterSave [] false savedTargets2 =
      .ok (listSet [] (getFileName jsonExt savedTargets2.fac (roleVersion savedTargets2) false)
            (.meta savedTargets2.payload),
          { savedTargets2 with needsSaving := false }) :=
  ⟨(C6_save_dirty_fatal [] false (createEmpty targetsRoleFac false)).1 rfl rfl,
   ((C6_save_dirty_fatal [] false savedTargets2).2 rfl rfl).1⟩

/-- Claim C10: starting from a freshly created record or from a loaded
record, any sequence of set-version, bumpVersion, sign and save operations
preserves the invariant that a dirty record also needs saving (every
transition of the dirty flag goes through the `needsSigning` setter, which
sets the saving flag), so a dirty record can never bypass the save-time
unsigned check by claiming it needs no saving. -/
theorem C10_dirty_needs_saving (fac : RoleFactory) (cs : Bool) (p : Payload)
    (dir : Dir) (ops : List RoleOp) :
    dirtyImpliesSavingB (runOps dir (createEmpty fac cs) ops).2 = true ∧
    dirtyImpliesSavingB (runOps dir (loadedRole fac p) ops).2 = true :=
  ⟨inv_runOps dir (createEmpty fac cs) ops
      (inv_setVersionRaw ⟨fac, initialPayload fac.ctorKind cs, false, false⟩ 0 rfl),
   inv_runOps dir (loadedRole fac p) ops rfl⟩

/-- Claim C4 (amended): reconciling an empty repository directory in
non-consistent mode yields exactly three role records — Timestamp,
Snapshot, Targets; the Root record is bootstrapped by the repository seed,
not by directory reconciliation — each at the freshly-created sentinel
version 0, with the Snapshot payload's metadata-file mapping empty. -/
theorem C4_empty_reconciliation :
    ∃ ts ss tg, loadOrCreateRoles (some []) false =
        .ok [("timestamp", ts), ("snapshot", ss), ("targets", tg)] ∧
      [("timestamp", ts), ("snapshot", ss), ("targets", tg)].length = 3 ∧
      roleVersion ts = 0 ∧ roleVersion ss = 0 ∧ roleVersion tg = 0 ∧
      ss.payload.meta = [] :=
  ⟨_, _, _, rfl, rfl, rfl, rfl, rfl, rfl⟩

/-- Counterexample to claim C4 as stated: reconciling an empty directory
yields three role records, not four (the Root record never passes through
`loadOrCreateRoles`). -/
theorem C4_counterexample :
    (loadOrCreateRoles (some []) false).map List.length = .ok 3 ∧ (3 : Nat) ≠ 4 :=
  ⟨rfl, by decide⟩

/-- Claim C5: evaluation of the failing input.  In consistent mode with no
candidate metadata file for the targets role (here: an empty repository
directory, so the freshly created snapshot's metadata mapping is empty),
`discoverConsistentVersionsFromFileNames` raises FileNotFoundError carrying
the pattern text, `loadOrCreateRoles` does not catch it, and the whole
reconciliation aborts instead of creating the role fresh. -/
theorem C5_consistent_absence_aborts :
    loadOrCreateRoles (some []) true =
      .error (.fileNotFound
        (escapeDots (getConsistentFileName jsonExt targetsRoleFac.name "(\\d+)"))) := rfl

theorem natToCharsAux_zero (fuel : Nat) : natToCharsAux fuel 0 = [] := by
  cases fuel <;> rfl

theorem digitVal_char (d : Nat) (h : d < 10) : digitVal (Char.ofNat (48 + d)) = d := by
  interval_cases d <;> decide

theorem isDigit_char (d : Nat) (h : d < 10) : (Char.ofNat (48 + d)).isDigit = true := by
  interval_cases d <;> decide

theorem digitsToNat_append_one (xs : List Char) (c : Char) :
    digitsToNat (xs ++ [c]) = 10 * digitsToNat xs + digitVal c := by
  unfold digitsToNat
  rw [List.foldl_append]
  simp [Nat.mul_comm]

theorem natToCharsAux_val (fuel : Nat) : ∀ n, 0 < n → n ≤ fuel →
    digitsToNat (natToCharsAux fuel n) = n := by
  induction fuel with
  | zero => intro n h1 h2; omega
  | succ f ih =>
    intro n h1 h2
    obtain ⟨m, rfl⟩ : ∃ m, n = m + 1 := ⟨n - 1, by omega⟩
    show digitsToNat (natToCharsAux f ((m + 1) / 10) ++ [Char.ofNat (48 + (m + 1) % 10)]) =
      m + 1
    rw [digitsToNat_append_one, digitVal_char _ (Nat.mod_lt _ (by norm_num))]
    by_cases hq : (m + 1) / 10 = 0
    · have hlt : m + 1 < 10 := (Nat.div_eq_zero_iff (by norm_num)).mp hq
      rw [hq, natToCharsAux_zero]
      show 10 * digitsToNat [] + (m + 1) % 10 = m + 1
      have : digitsToNat [] = 0 := rfl
      rw [this, Nat.mod_eq_of_lt hlt]
      omega
    · have hlt : (m + 1) / 10 < m + 1 := Nat.div_lt_self h1 (by norm_num)
      rw [ih _ (Nat.pos_of_ne_zero hq) (by omega)]
      exact Nat.div_add_mod (m + 1) 10

theorem digitsToNat_natToChars (n : Nat) : digitsToNat (natToChars n) = n := by
  by_cases h : n = 0
  · subst h; rfl
  · unfold natToChars
    rw [if_neg h]
    exact natToCharsAux_val n n (Nat.pos_of_ne_zero h) le_rfl

theorem natToCharsAux_digits (fuel : Nat) :
    ∀ n, ∀ c ∈ natToCharsAux fuel n, c.isDigit = true := by
  induction fuel with
  | zero => intro n c hc; simp [natToCharsAux] at hc
  | succ f ih =>
    intro n c hc
    cases n with
    | zero => simp [natToCharsAux] at hc
    | succ m =>
      simp only [natToCharsAux, List.mem_append, List.mem_singleton] at hc
      rcases hc with hc | hc
      · exact ih _ c hc
      · subst hc
        exact isDigit_char _ (Nat.mod_lt _ (by norm_num))

theorem natToChars_digits (n : Nat) : ∀ c ∈ natToChars n, c.isDigit = true := by
  intro c hc
  unfold natToChars at hc
  by_cases h : n = 0
  · rw [if_pos h] at hc
    simp at hc
    subst hc
    decide
  · rw [if_neg h] at hc
    exact natToCharsAux_digits n n c hc

theorem natToChars_ne_nil (n : Nat) : natToChars n ≠ [] := by
  unfold natToChars
  by_cases h : n = 0
  · simp [h]
  · rw [if_neg h]
    obtain ⟨m, rfl⟩ : ∃ m, n = m + 1 := ⟨n - 1, by omega⟩
    simp [natToCharsAux]

theorem takeDigits_digits_dot (ds rest : List Char) (h : ∀ c ∈ ds, c.isDigit = true) :
    takeDigits (ds ++ '.' :: rest) = (ds, '.' :: rest) := by
  induction ds with
  | nil =>
    have hdot : ('.' : Char).isDigit = false := by decide
    simp [takeDigits, hdot]
  | cons c cs ih =>
    have hc : c.isDigit = true := h c (by simp)
    have hcs : ∀ x ∈ cs, x.isDigit = true := fun x hx => h x (by simp [hx])
    simp [takeDigits, hc, ih hcs]

theorem startsWithL_append (p t : List Char) : startsWithL p (p ++ t) = true := by
  induction p with
  | nil => rfl
  | cons c cs ih => simp [startsWithL, ih]

theorem startsWithL_self (p : List Char) : startsWithL p p = true := by
  simpa using startsWithL_append p []

theorem strDataAppend (a b : String) : (a ++ b).data = a.data ++ b.data := by
  cases a; cases b; rfl

theorem consistentFileName_data (ext roleName : String) (v : Nat) :
    (getConsistentFileName ext roleName (natToString v)).data =
      natToChars v ++ '.' :: (roleName.data ++ '.' :: ext.data) := by
  show ((natToString v ++ "." ++ roleName ++ "." ++ ext)).data = _
  rw [strDataAppend, strDataAppend, strDataAppend, strDataAppend]
  show natToChars v ++ ['.'] ++ roleName.data ++ ['.'] ++ ext.data = _
  simp

theorem matchConsistent_name (ext roleName : String) (v : Nat) :
    matchConsistent ext roleName (getConsistentFileName ext roleName (natToString v)) =
      some (v, getConsistentFileName ext roleName (natToString v)) := by
  unfold matchConsistent
  rw [consistentFileName_data,
    takeDigits_digits_dot (natToChars v) _ (natToChars_digits v)]
  simp [natToChars_ne_nil v, startsWithL_self, digitsToNat_natToChars]

/-- Claim C8: naming and discovery are inverse operations — running
consistent-mode discovery on the single file name produced by the
consistent naming function for a `(version, roleName, ext)` triple recovers
exactly that version.  The two hypotheses restrict the role name and the
extension to characters the discovery regular expression treats literally
(the embedding of the matcher is literal); every role name and extension
the program constructs satisfies them. -/
theorem C8_discover_name_inverse (v : Nat) (roleName ext : String)
    (hr : regexSafeStr roleName = true) (he : regexSafeStr ext = true) :
    discoverConsistentVersionsFromFileNames ext roleName
        [getConsistentFileName ext roleName (natToString v)] =
      .ok [(v, getConsistentFileName ext roleName (natToString v))] := by
  unfold discoverConsistentVersionsFromFileNames
  rw [show [getConsistentFileName ext roleName (natToString v)].filterMap
        (matchConsistent ext roleName) =
      [(v, getConsistentFileName ext roleName (natToString v))] from by
    simp [List.filterMap, matchConsistent_name]]
  simp [sortByVer, insertByVer]

/-- Concrete run of the inverse theorem at version 5 for the targets role
under the json extension: the built name is `5.targets.json` and discovery
recovers version 5 from it. -/
theorem C8_discover_name_inverse_witness :
    regexSafeStr "targets" = true ∧ regexSafeStr "json" = true ∧
    getConsistentFileName "json" "targets" (natToString 5) = "5.targets.json" ∧
    discoverConsistentVersionsFromFileNames "json" "targets" ["5.targets.json"] =
      .ok [(5, "5.targets.json")] :=
  ⟨rfl, rfl, rfl, C8_discover_name_inverse 5 "targets" "json" rfl rfl⟩

/-- Claim C1: when reconciliation finds a single candidate metadata file
for a remaining role — recorded in the snapshot's metadata mapping at
version `vMeta`, carrying `ov` as the version its file name encodes (none
in simple mode) and holding a payload `p` on disk — then a file name
version disagreeing with the snapshot-recorded version aborts with the
ValueError of line 435, an in-payload version disagreeing with the
snapshot-recorded version aborts with the RuntimeError of
`loadFromData`, and the role loads successfully exactly when all the
available versions agree. -/
theorem C1_version_agreement (dir : Dir) (snapMeta : List (String × Nat))
    (fac : RoleFactory) (isConsistent : Bool) (ov : Option Nat) (fileName : String)
    (vMeta : Nat) (p : Payload)
    (hdisc : discoverVersionsFromFileNames jsonExt fac (snapMeta.map Prod.fst)
        (isRoleConsistent fac isConsistent) = .ok [(ov, fileName)])
    (hmeta : listLookup snapMeta fileName = some vMeta)
    (hfile : listLookup dir fileName = some (.meta p)) :
    (∀ vn, ov = some vn → vn ≠ vMeta →
      loadRemainingRole (some dir) snapMeta fac isConsistent =
        .error (.versionFromNameMismatch fileName vn vMeta)) ∧
    (p.version ≠ vMeta → (ov = none ∨ ov = some vMeta) →
      loadRemainingRole (some dir) snapMeta fac isConsistent =
        .error (.versionMismatchFile fac.name vMeta p.version)) ∧
    (p.version = vMeta → (ov = none ∨ ov = some vMeta) →
      loadRemainingRole (some dir) snapMeta fac isConsistent = .ok (loadedRole fac p)) := by
  unfold loadRemainingRole
  rw [hdisc]
  refine ⟨?_, ?_, ?_⟩
  · rintro vn rfl hne
    simp [hmeta, Ne.symm hne]
  · rintro hpv (rfl | rfl) <;> simp [hmeta, hfile, loadFromEntry, hpv]
  · rintro hpv (rfl | rfl) <;> simp [hmeta, hfile, loadFromEntry, hpv]

/-- Concrete run of the agreement theorem in consistent mode: the candidate
`3.targets.json` encodes version 3 while the snapshot records version 4 for
it, and reconciliation of the role aborts with the version-disagreement
error carrying both values. -/
theorem C1_version_agreement_witness :
    loadRemainingRole (some c1Dir) c1SnapMeta targetsRoleFac true =
      .error (.versionFromNameMismatch "3.targets.json" 3 4) :=
  (C1_version_agreement c1Dir c1SnapMeta targetsRoleFac true (some 3) "3.targets.json" 4
      ⟨.targets, 5, [], [], 0, false⟩ rfl rfl rfl).1 3 rfl (by decide)

/-- Claim C9 (amended): after `bindMetadata` on a builder holding the three
reconciled roles, the snapshot payload's metadata mapping contains an entry
mapping the targets role's current on-disk file name (under the current
consistency mode) to its version — the targets role being the only role
that is neither a Snapshot nor a Timestamp — and every other entry of the
mapping is one that was already present before the call. -/
theorem C9_bindMetadata_entries (c : Bool) (ts ss tg : OurRole)
    (ufs : List (String × List Nat))
    (hts : ts.payload.kind = RoleKind.timestamp)
    (hss : ss.payload.kind = RoleKind.snapshot)
    (htg : tg.payload.kind = RoleKind.targets) :
    listLookup
        (getRole (bindMetadata ⟨c, [("timestamp", ts), ("snapshot", ss), ("targets", tg)],
          ufs⟩) "snapshot").payload.meta
        (fileNameForRole tg.fac (roleVersion tg) c) = some (roleVersion tg) ∧
    ∀ k,
      (listLookup
          (getRole (bindMetadata ⟨c, [("timestamp", ts), ("snapshot", ss), ("targets", tg)],
            ufs⟩) "snapshot").payload.meta k).isSome = true →
        k = fileNameForRole tg.fac (roleVersion tg) c ∨
        (listLookup ss.payload.meta k).isSome = true := by
  have hm :
      (getRole (bindMetadata ⟨c, [("timestamp", ts), ("snapshot", ss), ("targets", tg)],
        ufs⟩) "snapshot").payload.meta =
      listSet ss.payload.meta (fileNameForRole tg.fac (roleVersion tg) c) (roleVersion tg) := by
    simp [bindMetadata, getRole, setRole, listLookup, listSet, meta_signRole,
      payload_setNeedsSigning, hts, hss, htg]
  constructor
  · rw [hm]
    exact listLookup_set_self _ _ _
  · intro k hk
    by_cases hkfn : k = fileNameForRole tg.fac (roleVersion tg) c
    · exact Or.inl hkfn
    · rw [hm, listLookup_set_ne _ _ _ _ hkfn] at hk
      exact Or.inr hk

/-- Concrete run of the bindMetadata theorem on three freshly created
records in simple mode: the snapshot's mapping records `targets.json` at
the fresh targets version 0. -/
theorem C9_bindMetadata_entries_witness :
    listLookup
        (getRole (bindMetadata ⟨false, [("timestamp", c9Ts), ("snapshot", c9Ss),
          ("targets", c9Tg)], []⟩) "snapshot").payload.meta
        (fileNameForRole c9Tg.fac (roleVersion c9Tg) false) = some (roleVersion c9Tg) :=
  (C9_bindMetadata_entries false c9Ts c9Ss c9Tg [] rfl rfl rfl).1

/-- Counterexample to claim C9 as stated ("and no other entries"): on a
consistent-mode builder whose loaded snapshot still lists the previous
targets file name `1.targets.json` while the targets record stands at
version 2, the mapping after `bindMetadata` retains the stale entry, whose
key differs from the one file name of the only non-excluded role. -/
theorem C9_counterexample :
    ¬ (∀ k,
        (listLookup (getRole (bindMetadata bStale) "snapshot").payload.meta k).isSome = true →
          k = fileNameForRole targetsRoleFac
                (roleVersion (getRole bStale "targets")) bStale.consistent) := by
  intro h
  exact absurd (h "1.targets.json" rfl) (by decide)

/-- Claim C3: the round trip.  For every external hash function, building a
repository with user files a.txt ↦ hello from scratch, running the publish
cascade, saving it and reconciling fresh from the saved directory yields a
Targets payload whose entry for a.txt records exactly the hash of the hello
bytes (and their length 5), and Snapshot and Timestamp records whose
versions equal the versions the saved builder's records carried when they
were written. -/
theorem C3_round_trip (hash : List Nat → String) :
    ∃ bSaved b2, roundTripC3 hash = .ok (bSaved, b2) ∧
      listLookup (getRole b2 "targets").payload.targets "a.txt" =
        some ⟨helloBytes.length, hash helloBytes⟩ ∧
      roleVersion (getRole b2 "snapshot") = roleVersion (getRole bSaved "snapshot") ∧
      roleVersion (getRole b2 "timestamp") = roleVersion (getRole bSaved "timestamp") :=
  ⟨_, _, rfl, rfl, rfl, rfl⟩

end Tuft
